import Mathlib

/-!
# Moka graphics commands: scissor / viewport rectangles and visitor dispatch

A shallow embedding of

* `basic_rectangle` and the `visit` / `submit` interface of `graphics_api`
  (`engine/src/includes/graphics/api/graphics_api.hpp`),
* `scissor_command::accept` and both overloads of
  `scissor_command::set_rectangle`
  (`engine/src/graphics/command/scissor_command.cpp`),
* the fields and default member initialisers of `viewport_command`
  (`engine/includes/graphics/command/viewport_command.hpp`).

The C++ type `int` is embedded as `Int`: the embedded code only copies `int`
values, it performs no arithmetic on them, so no overflow can occur and every
`int` value is in particular an `Int`.

A member function is embedded twice where reference identity matters:
once as a function on the object it is called on (`this` in, `*this` out),
and once on a `memory` of objects, where `this` is an address and the
returned `scissor_command&` is the address the function returns.
-/

namespace moka

/-! ## Data model -/

/-- The struct template `basic_rectangle<T>` of `graphics_api.hpp`:
`T x, y, width, height;` in this declaration order. -/
structure basic_rectangle (T : Type) where
  x : T
  y : T
  width : T
  height : T
  deriving DecidableEq, Repr

/-- The constructor
`basic_rectangle(const T x, const T y, const T width, const T height)`
with its member initialiser list
`x{ x }, y{ y }, width{ width }, height{ height }`. -/
def basic_rectangle.ctor {T : Type} (x y width height : T) : basic_rectangle T :=
  { x := x, y := y, width := width, height := height }

/-- The alias `using rectangle = basic_rectangle<int>;`. -/
abbrev rectangle : Type := basic_rectangle Int

/-- Modelled from the spec: the class declaration of `scissor_command`
(`graphics/command/scissor_command.hpp`) is not among the sources. The four
`int` members are the ones `scissor_command.cpp` assigns (the spec gives the
scissor command the shape of the viewport command: x, y, width, height); every
other part of the object, such as its name discriminator, is the field `other`
of a type `σ` taken as a parameter. -/
structure scissor_command (σ : Type) where
  width : Int
  height : Int
  x : Int
  y : Int
  other : σ
  deriving DecidableEq, Repr

/-- The class `viewport_command` of `viewport_command.hpp` with its default
member initialisers: `int width = 0; int height = 0; int x = 0; int y = 0;`
and `const char* name = "viewport_command";`. The base class
`graphics_command` is not among the sources and contributes no state here. -/
structure viewport_command where
  width : Int := 0
  height : Int := 0
  x : Int := 0
  y : Int := 0
  name : String := "viewport_command"
  deriving DecidableEq, Repr

/-- A default-constructed `viewport_command`: the class declares no
constructor, so every member takes its default member initialiser. -/
def viewport_command.default_constructed : viewport_command := {}

/-! ## `scissor_command::set_rectangle` on the object -/

section scissor
variable {σ : Type}

/-- The overload `scissor_command::set_rectangle(int x, int y, int width, int height)`:
the four assignments in source order, then `return *this;`. -/
def scissor_command.set_rectangle (this : scissor_command σ) (x y width height : Int) :
    scissor_command σ :=
  let this := { this with width := width }
  let this := { this with height := height }
  let this := { this with x := x }
  let this := { this with y := y }
  this

/-- The overload `scissor_command::set_rectangle(const rectangle& rectangle)`:
the four assignments in source order, then `return *this;`. -/
def scissor_command.set_rectangle_rect (this : scissor_command σ) (rectangle : rectangle) :
    scissor_command σ :=
  let this := { this with width := rectangle.width }
  let this := { this with height := rectangle.height }
  let this := { this with x := rectangle.x }
  let this := { this with y := rectangle.y }
  this

end scissor

/-! ## `scissor_command::set_rectangle` on a memory of objects -/

/-- A memory holding `scissor_command` objects and `rectangle` objects, each
kind addressed by natural numbers. A `scissor_command&` or `this` is an
address into `commands`, a `const rectangle&` an address into `rectangles`;
the two kinds of object never overlap. -/
structure memory (σ : Type) where
  commands : Nat → scissor_command σ
  rectangles : Nat → rectangle

section scissor_memory
variable {σ : Type}

/-- One assignment `this->field = value;` to the command at address `this`:
the object at that address is replaced by `f` of itself, nothing else is
written. -/
def memory.assign (m : memory σ) (this : Nat) (f : scissor_command σ → scissor_command σ) :
    memory σ :=
  { m with commands := Function.update m.commands this (f (m.commands this)) }

/-- The overload `scissor_command::set_rectangle(int x, int y, int width, int height)`
run on the command at address `this`: four assignments through `this`, then
`return *this;`, the returned reference being the first component. -/
def memory.set_rectangle (m : memory σ) (this : Nat) (x y width height : Int) :
    Nat × memory σ :=
  let m := m.assign this (fun c => { c with width := width })
  let m := m.assign this (fun c => { c with height := height })
  let m := m.assign this (fun c => { c with x := x })
  let m := m.assign this (fun c => { c with y := y })
  (this, m)

/-- The overload `scissor_command::set_rectangle(const rectangle& rectangle)`
run on the command at address `this` with the rectangle at address
`rectangle`: each assignment reads one field of the rectangle from the memory
and writes it through `this`; then `return *this;`. -/
def memory.set_rectangle_rect (m : memory σ) (this : Nat) (rectangle : Nat) :
    Nat × memory σ :=
  let m := m.assign this (fun c => { c with width := (m.rectangles rectangle).width })
  let m := m.assign this (fun c => { c with height := (m.rectangles rectangle).height })
  let m := m.assign this (fun c => { c with x := (m.rectangles rectangle).x })
  let m := m.assign this (fun c => { c with y := (m.rectangles rectangle).y })
  (this, m)

end scissor_memory

/-! ## Sequences of `set_rectangle` calls -/

/-- One call of `set_rectangle`, by either overload, with its arguments. -/
inductive rectangle_call where
  | ints (x y width height : Int)
  | rect (r : rectangle)
  deriving DecidableEq, Repr

/-- All arguments of the call are non-negative. -/
def rectangle_call.nonneg : rectangle_call → Prop
  | .ints x y width height => 0 ≤ x ∧ 0 ≤ y ∧ 0 ≤ width ∧ 0 ≤ height
  | .rect r => 0 ≤ r.x ∧ 0 ≤ r.y ∧ 0 ≤ r.width ∧ 0 ≤ r.height

instance rectangle_call.nonneg_decidable : DecidablePred rectangle_call.nonneg := fun call =>
  match call with
  | .ints x y width height =>
      inferInstanceAs (Decidable (0 ≤ x ∧ 0 ≤ y ∧ 0 ≤ width ∧ 0 ≤ height))
  | .rect r =>
      inferInstanceAs (Decidable (0 ≤ r.x ∧ 0 ≤ r.y ∧ 0 ≤ r.width ∧ 0 ≤ r.height))

section scissor_calls
variable {σ : Type}

/-- Modelled from the spec: `scissor_command.hpp`, which holds the default
member initialisers of `scissor_command`, is not among the sources. The spec
gives the scissor command the identical shape of the viewport command, whose
four fields all start at 0; the rest of the object is the argument `other`. -/
def scissor_command.default_constructed (other : σ) : scissor_command σ :=
  { width := 0, height := 0, x := 0, y := 0, other := other }

/-- The scissor command after one call of `set_rectangle`. -/
def scissor_command.apply_call (this : scissor_command σ) : rectangle_call → scissor_command σ
  | .ints x y width height => this.set_rectangle x y width height
  | .rect r => this.set_rectangle_rect r

/-- The scissor command after a sequence of `set_rectangle` calls, first call
first. -/
def scissor_command.apply_calls (this : scissor_command σ) (calls : List rectangle_call) :
    scissor_command σ :=
  calls.foldl scissor_command.apply_call this

/-- The fields x, y, width and height of the scissor command are all non-negative. -/
def scissor_command.fields_nonneg (c : scissor_command σ) : Prop :=
  0 ≤ c.x ∧ 0 ≤ c.y ∧ 0 ≤ c.width ∧ 0 ≤ c.height

instance scissor_command.fields_nonneg_decidable (c : scissor_command σ) :
    Decidable c.fields_nonneg :=
  inferInstanceAs (Decidable (0 ≤ c.x ∧ 0 ≤ c.y ∧ 0 ≤ c.width ∧ 0 ≤ c.height))

end scissor_calls

/-- Modelled from the spec: `viewport_command::set_rectangle(int, int, int, int)`
is declared in `viewport_command.hpp` but its body (`viewport_command.cpp`) is
not among the sources. By its doc comment it sets the rectangle of the
viewport to the given x, y, width and height and returns this command; by the
spec the command carries the given values verbatim. -/
def viewport_command.set_rectangle (this : viewport_command) (x y width height : Int) :
    viewport_command :=
  { this with width := width, height := height, x := x, y := y }

/-- Modelled from the spec: `viewport_command::set_rectangle(const rectangle&)`
is declared in `viewport_command.hpp` but its body is not among the sources.
By its doc comment the x, y, width and height of the rectangle become those of
the viewport; by the spec both overloads produce the identical state. -/
def viewport_command.set_rectangle_rect (this : viewport_command) (rectangle : rectangle) :
    viewport_command :=
  { this with width := rectangle.width, height := rectangle.height,
              x := rectangle.x, y := rectangle.y }

/-- The viewport command after one call of `set_rectangle`. -/
def viewport_command.apply_call (this : viewport_command) : rectangle_call → viewport_command
  | .ints x y width height => this.set_rectangle x y width height
  | .rect r => this.set_rectangle_rect r

/-- The viewport command after a sequence of `set_rectangle` calls, first call
first. -/
def viewport_command.apply_calls (this : viewport_command) (calls : List rectangle_call) :
    viewport_command :=
  calls.foldl viewport_command.apply_call this

/-- The fields x, y, width and height of the viewport command are all non-negative. -/
def viewport_command.fields_nonneg (c : viewport_command) : Prop :=
  0 ≤ c.x ∧ 0 ≤ c.y ∧ 0 ≤ c.width ∧ 0 ≤ c.height

instance viewport_command.fields_nonneg_decidable (c : viewport_command) :
    Decidable c.fields_nonneg :=
  inferInstanceAs (Decidable (0 ≤ c.x ∧ 0 ≤ c.y ∧ 0 ≤ c.width ∧ 0 ≤ c.height))

/-! ## The visitor interface and `scissor_command::accept` -/

/-- The command classes that `graphics_api.hpp` names in its `visit`
overloads but whose declarations are not among the sources; the state of each
is taken as a parameter. -/
structure command_classes where
  clear_command : Type
  draw_command : Type
  fill_vertex_buffer_command : Type
  fill_index_buffer_command : Type

/-- The six pure virtual `visit` overloads declared in `graphics_api`
(`graphics_api.hpp`, overriding `graphics_visitor`), over a visitor state `V`.
Each takes its command by mutable reference, so it returns the command as the
visitor leaves it together with the new visitor state. -/
structure graphics_visitor (K : command_classes) (σ V : Type) where
  visit_clear : K.clear_command → V → K.clear_command × V
  visit_draw : K.draw_command → V → K.draw_command × V
  visit_viewport : viewport_command → V → viewport_command × V
  visit_scissor : scissor_command σ → V → scissor_command σ × V
  visit_fill_vertex_buffer :
    K.fill_vertex_buffer_command → V → K.fill_vertex_buffer_command × V
  visit_fill_index_buffer :
    K.fill_index_buffer_command → V → K.fill_index_buffer_command × V

/-- One operation invoked on a graphics device, with the command it was given:
one of the six `visit` overloads, or the buffer swap of `submit_and_swap`. -/
inductive api_call (K : command_classes) (σ : Type) where
  | visit_clear (cmd : K.clear_command)
  | visit_draw (cmd : K.draw_command)
  | visit_viewport (cmd : viewport_command)
  | visit_scissor (cmd : scissor_command σ)
  | visit_fill_vertex_buffer (cmd : K.fill_vertex_buffer_command)
  | visit_fill_index_buffer (cmd : K.fill_index_buffer_command)
  | swap_buffers

section visitor
variable {K : command_classes} {σ V : Type}

/-- The member function `scissor_command::accept(graphics_visitor& visitor)`:
its body is the single statement `visitor.visit(*this);`, which overload
resolution binds to `visit(scissor_command&)`. -/
def scissor_command.accept (this : scissor_command σ) (visitor : graphics_visitor K σ V)
    (s : V) : scissor_command σ × V :=
  visitor.visit_scissor this s

/-- The visitor `v` instrumented with a log: every `visit` overload first
appends the call it receives to the log and then behaves as `v` does. -/
def graphics_visitor.recording (v : graphics_visitor K σ V) :
    graphics_visitor K σ (List (api_call K σ) × V) where
  visit_clear cmd s :=
    ((v.visit_clear cmd s.2).1, (s.1 ++ [api_call.visit_clear cmd], (v.visit_clear cmd s.2).2))
  visit_draw cmd s :=
    ((v.visit_draw cmd s.2).1, (s.1 ++ [api_call.visit_draw cmd], (v.visit_draw cmd s.2).2))
  visit_viewport cmd s :=
    ((v.visit_viewport cmd s.2).1,
      (s.1 ++ [api_call.visit_viewport cmd], (v.visit_viewport cmd s.2).2))
  visit_scissor cmd s :=
    ((v.visit_scissor cmd s.2).1,
      (s.1 ++ [api_call.visit_scissor cmd], (v.visit_scissor cmd s.2).2))
  visit_fill_vertex_buffer cmd s :=
    ((v.visit_fill_vertex_buffer cmd s.2).1,
      (s.1 ++ [api_call.visit_fill_vertex_buffer cmd], (v.visit_fill_vertex_buffer cmd s.2).2))
  visit_fill_index_buffer cmd s :=
    ((v.visit_fill_index_buffer cmd s.2).1,
      (s.1 ++ [api_call.visit_fill_index_buffer cmd], (v.visit_fill_index_buffer cmd s.2).2))

end visitor

/-! ## Command lists and submission -/

/-- Modelled from the spec: the base class `graphics_command` and the command
classes other than scissor and viewport are not among the sources. By the spec
a graphics command is one of the six variants clear, draw, viewport, scissor,
fill-vertex-buffer and fill-index-buffer. -/
inductive graphics_command (K : command_classes) (σ : Type) where
  | clear (cmd : K.clear_command)
  | draw (cmd : K.draw_command)
  | viewport (cmd : viewport_command)
  | scissor (cmd : scissor_command σ)
  | fill_vertex_buffer (cmd : K.fill_vertex_buffer_command)
  | fill_index_buffer (cmd : K.fill_index_buffer_command)

/-- Modelled from the spec: `command_list` is only forward-declared in
`graphics_api.hpp`. By the spec it is an insertion-ordered sequence of graphics
commands, constructed empty and appended to at the tail. -/
structure command_list (K : command_classes) (σ : Type) where
  commands : List (graphics_command K σ)

/-- Modelled from the spec: `graphics_api` declares `submit` and
`submit_and_swap` pure virtual, no backend is among the sources. The device is
the visitor together with the backend operation that presents the frame by
swapping the front and back buffer. -/
structure graphics_api (K : command_classes) (σ V : Type) extends graphics_visitor K σ V where
  swap_buffers : V → V

section submission
variable {K : command_classes} {σ V : Type}

/-- The `visit` call that belongs to the kind of the command. -/
def graphics_command.own_call : graphics_command K σ → api_call K σ
  | .clear cmd => api_call.visit_clear cmd
  | .draw cmd => api_call.visit_draw cmd
  | .viewport cmd => api_call.visit_viewport cmd
  | .scissor cmd => api_call.visit_scissor cmd
  | .fill_vertex_buffer cmd => api_call.visit_fill_vertex_buffer cmd
  | .fill_index_buffer cmd => api_call.visit_fill_index_buffer cmd

/-- Modelled from the spec: the virtual call `graphics_command::accept`. For a
scissor command it is `scissor_command::accept` of the sources; the `accept`
of the other five variants (bodies not among the sources) invokes, by the
spec, exactly the `visit` overload of the variant's own kind. -/
def graphics_command.accept (this : graphics_command K σ) (visitor : graphics_visitor K σ V)
    (s : V) : graphics_command K σ × V :=
  match this with
  | .clear cmd => (.clear (visitor.visit_clear cmd s).1, (visitor.visit_clear cmd s).2)
  | .draw cmd => (.draw (visitor.visit_draw cmd s).1, (visitor.visit_draw cmd s).2)
  | .viewport cmd =>
      (.viewport (visitor.visit_viewport cmd s).1, (visitor.visit_viewport cmd s).2)
  | .scissor cmd => (.scissor (cmd.accept visitor s).1, (cmd.accept visitor s).2)
  | .fill_vertex_buffer cmd =>
      (.fill_vertex_buffer (visitor.visit_fill_vertex_buffer cmd s).1,
        (visitor.visit_fill_vertex_buffer cmd s).2)
  | .fill_index_buffer cmd =>
      (.fill_index_buffer (visitor.visit_fill_index_buffer cmd s).1,
        (visitor.visit_fill_index_buffer cmd s).2)

/-- Modelled from the spec: a command list is constructed empty. -/
def command_list.empty : command_list K σ :=
  { commands := [] }

/-- Modelled from the spec: the append operation adds one command to the tail
of the list, preserving insertion order. -/
def command_list.append (this : command_list K σ) (cmd : graphics_command K σ) :
    command_list K σ :=
  { commands := this.commands ++ [cmd] }

/-- The command list built by appending the given commands in sequence to an
empty list. -/
def command_list.build (cmds : List (graphics_command K σ)) : command_list K σ :=
  cmds.foldl command_list.append command_list.empty

/-- Modelled from the spec: `graphics_api::submit(command_list&& commands)` is
pure virtual in the sources. By the spec the device iterates the list
sequentially, front to back, double-dispatching each command to its own
`visit` overload, without reordering, batching or deduplication; the list is
consumed, the device state is what remains. -/
def graphics_api.submit (api : graphics_api K σ V) (commands : command_list K σ) (s : V) : V :=
  commands.commands.foldl (fun s cmd => (cmd.accept api.tographics_visitor s).2) s

/-- Modelled from the spec: `graphics_api::submit_and_swap(command_list&& commands)`
is pure virtual in the sources. By the spec it executes the list as `submit`
does and then presents the frame by swapping the buffers. -/
def graphics_api.submit_and_swap (api : graphics_api K σ V) (commands : command_list K σ)
    (s : V) : V :=
  api.swap_buffers (api.submit commands s)

/-- The device `api` instrumented with a log: its visitor records every
`visit` call, and the buffer swap is recorded as well. -/
def graphics_api.recording (api : graphics_api K σ V) :
    graphics_api K σ (List (api_call K σ) × V) where
  tographics_visitor := api.tographics_visitor.recording
  swap_buffers s := (s.1 ++ [api_call.swap_buffers], api.swap_buffers s.2)

end submission

/-! ## Theorems -/

section scissor_theorems
variable {σ : Type}

/-- C1. Equivalence law: for every scissor command and all integers x, y,
width, height, the four-integer overload of `set_rectangle` and the rectangle
overload applied to `rectangle(x, y, width, height)` produce the same command
state (all four rectangle fields and every other field). -/
theorem C1_set_rectangle_overloads_agree (c : scissor_command σ) (x y width height : Int) :
    c.set_rectangle x y width height
      = c.set_rectangle_rect (basic_rectangle.ctor x y width height) := rfl

/-- C3. Pure data carrier: for all integers, zero and negative ones included,
both overloads of `set_rectangle` are total and the resulting command carries
exactly the given x, y, width and height, without clamping, swapping or
normalisation; the zero-area rectangle is stored verbatim. -/
theorem C3_set_rectangle_stores_verbatim (c : scissor_command σ) (x y width height : Int)
    (r : rectangle) :
    ((c.set_rectangle x y width height).x = x
      ∧ (c.set_rectangle x y width height).y = y
      ∧ (c.set_rectangle x y width height).width = width
      ∧ (c.set_rectangle x y width height).height = height)
    ∧ ((c.set_rectangle_rect r).x = r.x
      ∧ (c.set_rectangle_rect r).y = r.y
      ∧ (c.set_rectangle_rect r).width = r.width
      ∧ (c.set_rectangle_rect r).height = r.height)
    ∧ ((c.set_rectangle x y 0 0).width = 0 ∧ (c.set_rectangle x y 0 0).height = 0)
    ∧ ((c.set_rectangle_rect (basic_rectangle.ctor x y 0 0)).width = 0
      ∧ (c.set_rectangle_rect (basic_rectangle.ctor x y 0 0)).height = 0) :=
  ⟨⟨rfl, rfl, rfl, rfl⟩, ⟨rfl, rfl, rfl, rfl⟩, ⟨rfl, rfl⟩, ⟨rfl, rfl⟩⟩

/-- C9. Last write wins: setting rectangle a and then rectangle b gives the
same command state as setting b alone, for both overloads and for their
mixtures, so the earlier rectangle never matters; in particular
`set_rectangle` is idempotent. -/
theorem C9_set_rectangle_last_write_wins (c : scissor_command σ) (a b : rectangle)
    (x y width height x2 y2 width2 height2 : Int) :
    (c.set_rectangle_rect a).set_rectangle_rect b = c.set_rectangle_rect b
    ∧ (c.set_rectangle x y width height).set_rectangle x2 y2 width2 height2
        = c.set_rectangle x2 y2 width2 height2
    ∧ (c.set_rectangle x y width height).set_rectangle_rect b = c.set_rectangle_rect b
    ∧ (c.set_rectangle_rect a).set_rectangle x y width height
        = c.set_rectangle x y width height
    ∧ (c.set_rectangle_rect a).set_rectangle_rect a = c.set_rectangle_rect a
    ∧ (c.set_rectangle x y width height).set_rectangle x y width height
        = c.set_rectangle x y width height :=
  ⟨rfl, rfl, rfl, rfl, rfl, rfl⟩

/-- C10. Round trip through the rectangle value type: the constructor of
`basic_rectangle` maps its arguments to the fields of the same names, the
rectangle overload copies each field to the command field of the same name,
and so setting a command to the rectangle built from its own x, y, width and
height leaves the command unchanged. -/
theorem C10_set_rectangle_round_trip (c : scissor_command σ) (x y width height : Int)
    (r : rectangle) :
    c.set_rectangle_rect (basic_rectangle.ctor c.x c.y c.width c.height) = c
    ∧ ((basic_rectangle.ctor x y width height).x = x
      ∧ (basic_rectangle.ctor x y width height).y = y
      ∧ (basic_rectangle.ctor x y width height).width = width
      ∧ (basic_rectangle.ctor x y width height).height = height)
    ∧ ((c.set_rectangle_rect r).x = r.x
      ∧ (c.set_rectangle_rect r).y = r.y
      ∧ (c.set_rectangle_rect r).width = r.width
      ∧ (c.set_rectangle_rect r).height = r.height) :=
  ⟨rfl, ⟨rfl, rfl, rfl, rfl⟩, ⟨rfl, rfl, rfl, rfl⟩⟩

/-- C6. Initial state of a viewport command: a default-constructed
`viewport_command` has x = 0, y = 0, width = 0, height = 0 and the name
"viewport_command". -/
theorem C6_viewport_default_state :
    viewport_command.default_constructed.x = 0
    ∧ viewport_command.default_constructed.y = 0
    ∧ viewport_command.default_constructed.width = 0
    ∧ viewport_command.default_constructed.height = 0
    ∧ viewport_command.default_constructed.name = "viewport_command" :=
  ⟨rfl, rfl, rfl, rfl, rfl⟩

end scissor_theorems

section memory_theorems
variable {σ : Type}

/-- The four-integer overload run on a memory returns `this` and changes the
memory only at the address `this`, where it leaves what the overload on the
object computes. -/
theorem memory.set_rectangle_eq (m : memory σ) (this : Nat) (x y width height : Int) :
    m.set_rectangle this x y width height
      = (this, { commands := Function.update m.commands this
                    ((m.commands this).set_rectangle x y width height),
                 rectangles := m.rectangles }) := by
  simp [memory.set_rectangle, memory.assign, scissor_command.set_rectangle]

/-- The rectangle overload run on a memory returns `this` and changes the
memory only at the address `this`, where it leaves what the overload on the
object computes from the rectangle read at the address `r`. -/
theorem memory.set_rectangle_rect_eq (m : memory σ) (this r : Nat) :
    m.set_rectangle_rect this r
      = (this, { commands := Function.update m.commands this
                    ((m.commands this).set_rectangle_rect (m.rectangles r)),
                 rectangles := m.rectangles }) := by
  simp [memory.set_rectangle_rect, memory.assign, scissor_command.set_rectangle_rect]

/-- C4. Method chaining: each overload of `set_rectangle` returns the address
of the very command it was called on, which then holds the updated state; the
chained call `c.set_rectangle(a).set_rectangle(b)` therefore acts on c again,
changes no other command, and leaves c holding the rectangle b. -/
theorem C4_set_rectangle_returns_this (m : memory σ) (this a b : Nat)
    (x y width height : Int) :
    (m.set_rectangle this x y width height).1 = this
    ∧ (m.set_rectangle_rect this a).1 = this
    ∧ (m.set_rectangle this x y width height).2.commands
          (m.set_rectangle this x y width height).1
        = (m.commands this).set_rectangle x y width height
    ∧ (m.set_rectangle_rect this a).2.commands (m.set_rectangle_rect this a).1
        = (m.commands this).set_rectangle_rect (m.rectangles a)
    ∧ ((m.set_rectangle_rect this a).2.set_rectangle_rect
          (m.set_rectangle_rect this a).1 b).1 = this
    ∧ ((m.set_rectangle_rect this a).2.set_rectangle_rect
          (m.set_rectangle_rect this a).1 b).2.commands
        = Function.update m.commands this
            { width := (m.rectangles b).width, height := (m.rectangles b).height,
              x := (m.rectangles b).x, y := (m.rectangles b).y,
              other := (m.commands this).other } := by
  simp [memory.set_rectangle_eq, memory.set_rectangle_rect_eq,
    scissor_command.set_rectangle_rect]

/-- C8. Frame property: both overloads of `set_rectangle` write only the
fields x, y, width and height of the command they are called on; its other
state is kept, every other command in memory is untouched, and no rectangle,
the argument included, is modified. -/
theorem C8_set_rectangle_frame (m : memory σ) (this r : Nat) (x y width height : Int)
    (c : scissor_command σ) (a : rectangle) :
    (m.set_rectangle this x y width height).2.commands
        = Function.update m.commands this
            { width := width, height := height, x := x, y := y,
              other := (m.commands this).other }
    ∧ (m.set_rectangle this x y width height).2.rectangles = m.rectangles
    ∧ (m.set_rectangle_rect this r).2.commands
        = Function.update m.commands this
            { width := (m.rectangles r).width, height := (m.rectangles r).height,
              x := (m.rectangles r).x, y := (m.rectangles r).y,
              other := (m.commands this).other }
    ∧ (m.set_rectangle_rect this r).2.rectangles = m.rectangles
    ∧ (c.set_rectangle x y width height).other = c.other
    ∧ (c.set_rectangle_rect a).other = c.other := by
  simp [memory.set_rectangle_eq, memory.set_rectangle_rect_eq,
    scissor_command.set_rectangle, scissor_command.set_rectangle_rect]

end memory_theorems

section dispatch_theorems
variable {K : command_classes} {σ V : Type}

/-- C2. Double dispatch of the scissor variant: for every scissor command c
and every visitor implementing the six visit operations, `c.accept(v)` is
exactly one invocation of the scissor overload of `visit` with c as argument;
the log of the instrumented visitor gains that one call and no other, and the
instrumentation does not change what the visitor does. -/
theorem C2_scissor_accept_dispatch (c : scissor_command σ) (v : graphics_visitor K σ V)
    (s : V) (log : List (api_call K σ)) :
    c.accept v s = v.visit_scissor c s
    ∧ (c.accept v.recording ([], s)).2.1 = [api_call.visit_scissor c]
    ∧ (c.accept v.recording (log, s)).2.1 = log ++ [api_call.visit_scissor c]
    ∧ (c.accept v.recording (log, s)).1 = (c.accept v s).1
    ∧ (c.accept v.recording (log, s)).2.2 = (c.accept v s).2 :=
  ⟨rfl, rfl, rfl, rfl, rfl⟩

/-- Appending in sequence to a list keeps what it held and adds the commands
in order. -/
theorem command_list.foldl_append_commands (cmds : List (graphics_command K σ))
    (acc : command_list K σ) :
    (cmds.foldl command_list.append acc).commands = acc.commands ++ cmds := by
  induction cmds generalizing acc with
  | nil => simp
  | cons cmd rest ih => simp [ih, command_list.append]

/-- The list built by appending commands in sequence holds exactly those
commands, in append order. -/
theorem command_list.build_commands (cmds : List (graphics_command K σ)) :
    (command_list.build cmds).commands = cmds := by
  simp [command_list.build, command_list.foldl_append_commands, command_list.empty]

/-- Dispatching a command to the instrumented visitor logs the call of the
command's own kind and otherwise does what the visitor does. -/
theorem graphics_command.accept_recording (cmd : graphics_command K σ)
    (v : graphics_visitor K σ V) (log : List (api_call K σ)) (s : V) :
    cmd.accept v.recording (log, s)
      = ((cmd.accept v s).1, (log ++ [cmd.own_call], (cmd.accept v s).2)) := by
  cases cmd <;> rfl

/-- Running a sequence of commands on the instrumented device logs the call of
each command in sequence order and leaves the device state the plain device
would leave. -/
theorem graphics_api.foldl_recording (api : graphics_api K σ V)
    (cmds : List (graphics_command K σ)) (log : List (api_call K σ)) (s : V) :
    cmds.foldl (fun st cmd => (cmd.accept api.recording.tographics_visitor st).2) (log, s)
      = (log ++ cmds.map graphics_command.own_call,
          cmds.foldl (fun st cmd => (cmd.accept api.tographics_visitor st).2) s) := by
  induction cmds generalizing log s with
  | nil => simp
  | cons cmd rest ih =>
    simp only [List.foldl_cons, List.map_cons]
    have h : (cmd.accept api.recording.tographics_visitor (log, s)).2
        = (log ++ [cmd.own_call], (cmd.accept api.tographics_visitor s).2) := by
      show (cmd.accept api.tographics_visitor.recording (log, s)).2 = _
      rw [graphics_command.accept_recording]
    rw [h, ih]
    simp

/-- C7. Order preservation: for a command list built by appending N commands
in sequence, `submit` invokes the visit operations of the device exactly N
times, one per command and of that command's kind, in append order;
`submit_and_swap` does the same and then swaps the buffers; for N = 0 nothing
is invoked and the device state is unchanged. -/
theorem C7_submit_preserves_append_order (api : graphics_api K σ V)
    (cmds : List (graphics_command K σ)) (s : V) :
    (api.recording.submit (command_list.build cmds) ([], s)).1
        = cmds.map graphics_command.own_call
    ∧ (api.recording.submit (command_list.build cmds) ([], s)).1.length = cmds.length
    ∧ (api.recording.submit_and_swap (command_list.build cmds) ([], s)).1
        = cmds.map graphics_command.own_call ++ [api_call.swap_buffers]
    ∧ (api.recording.submit (command_list.build cmds) ([], s)).2
        = api.submit (command_list.build cmds) s
    ∧ api.recording.submit (command_list.build []) ([], s) = ([], s)
    ∧ api.submit (command_list.build []) s = s := by
  have h : api.recording.submit (command_list.build cmds) ([], s)
      = (cmds.map graphics_command.own_call, api.submit (command_list.build cmds) s) := by
    simp [graphics_api.submit, command_list.build_commands, graphics_api.foldl_recording]
  refine ⟨by rw [h], by rw [h]; simp, ?_, by rw [h], rfl, rfl⟩
  show (api.recording.swap_buffers (api.recording.submit (command_list.build cmds) ([], s))).1 = _
  rw [h]
  rfl

end dispatch_theorems

section nonneg_theorems
variable {σ : Type}

/-- A sequence of `set_rectangle` calls with non-negative arguments keeps the
fields of a scissor command non-negative. -/
theorem scissor_command.scissor_calls_nonneg (c : scissor_command σ)
    (calls : List rectangle_call) (hc : c.fields_nonneg)
    (h : ∀ call ∈ calls, call.nonneg) : (c.apply_calls calls).fields_nonneg := by
  induction calls generalizing c with
  | nil => exact hc
  | cons call rest ih =>
    have hcall : call.nonneg := h call (List.mem_cons_self _ _)
    have hrest : ∀ k ∈ rest, k.nonneg := fun k hk => h k (List.mem_cons_of_mem _ hk)
    refine ih (c.apply_call call) ?_ hrest
    cases call with
    | ints x y width height => exact hcall
    | rect r => exact hcall

/-- A sequence of `set_rectangle` calls with non-negative arguments keeps the
fields of a viewport command non-negative. -/
theorem viewport_command.viewport_calls_nonneg (c : viewport_command)
    (calls : List rectangle_call) (hc : c.fields_nonneg)
    (h : ∀ call ∈ calls, call.nonneg) : (c.apply_calls calls).fields_nonneg := by
  induction calls generalizing c with
  | nil => exact hc
  | cons call rest ih =>
    have hcall : call.nonneg := h call (List.mem_cons_self _ _)
    have hrest : ∀ k ∈ rest, k.nonneg := fun k hk => h k (List.mem_cons_of_mem _ hk)
    refine ih (c.apply_call call) ?_ hrest
    cases call with
    | ints x y width height => exact hcall
    | rect r => exact hcall

/-- C5, as stated, fails: one call `set_rectangle(-1, -2, -3, -4)` on a
default-constructed scissor command leaves x = -1, y = -2, width = -3 and
height = -4, so the fields are not non-negative. -/
theorem C5_negative_fields_reachable :
    (scissor_command.default_constructed "scissor_command").apply_calls
        [rectangle_call.ints (-1) (-2) (-3) (-4)]
      = { width := -3, height := -4, x := -1, y := -2, other := "scissor_command" }
    ∧ ¬ ((scissor_command.default_constructed "scissor_command").apply_calls
          [rectangle_call.ints (-1) (-2) (-3) (-4)]).fields_nonneg := by
  decide

/-- C5, amended. For every scissor command and every viewport command reached
from a default-constructed command by a sequence of `set_rectangle` calls
whose arguments are all non-negative, x, y, width and height are non-negative
integers. -/
theorem C5_fields_nonneg_of_nonneg_arguments (other : σ) (calls : List rectangle_call)
    (h : ∀ call ∈ calls, call.nonneg) :
    ((scissor_command.default_constructed other).apply_calls calls).fields_nonneg
    ∧ (viewport_command.default_constructed.apply_calls calls).fields_nonneg :=
  ⟨scissor_command.scissor_calls_nonneg _ calls (by simp [scissor_command.fields_nonneg,
      scissor_command.default_constructed]) h,
   viewport_command.viewport_calls_nonneg _ calls (by simp [viewport_command.fields_nonneg,
      viewport_command.default_constructed]) h⟩

/-- C5, amended, at a concrete input: after `set_rectangle(0, 0, 800, 600)`
and then `set_rectangle(rectangle(10, 20, 0, 0))` the fields are non-negative. -/
theorem C5_fields_nonneg_of_nonneg_arguments_witness :
    (∀ call ∈ [rectangle_call.ints 0 0 800 600,
                rectangle_call.rect (basic_rectangle.ctor 10 20 0 0)], call.nonneg)
    ∧ ((scissor_command.default_constructed "scissor_command").apply_calls
          [rectangle_call.ints 0 0 800 600,
            rectangle_call.rect (basic_rectangle.ctor 10 20 0 0)]).fields_nonneg
    ∧ (viewport_command.default_constructed.apply_calls
          [rectangle_call.ints 0 0 800 600,
            rectangle_call.rect (basic_rectangle.ctor 10 20 0 0)]).fields_nonneg :=
  ⟨by decide, C5_fields_nonneg_of_nonneg_arguments "scissor_command" _ (by decide)⟩

end nonneg_theorems

end moka
